import Mathlib

/-!
Shallow embedding of the so-rad orchestration layer (src/bin/main_app.py).

The embedding models the lifecycle functions `init_all` (lines 99-160),
`stop_all` (lines 163-200) and the body of the main loop in `run`
(lines 242-374) as explicit state-passing functions.  Collaborator modules
(`initialisation`, `functions.*`, `thread_managers.*`) are not part of the
repository sources provided; their per-cycle results (`check_gps`,
`check_sensors`, `check_sun`, `get_motor_pos`, `calculate_positions`,
`sample_all`, `GPSChecker.mean_bearing`) enter the model as per-iteration
oracle inputs, following the call contracts fixed in the spec.

Python exceptions are modelled explicitly; in particular a reference to a
local variable that was never assigned is an `UnboundLocalError`, and
indexing a list beyond its length is an `IndexError`.  All the
`datetime.datetime.now()` reads of one loop iteration are modelled as a
single per-iteration clock value `now` (they fall within one iteration,
far below the 60 s granularity that matters to the logic).
-/

namespace SoRad

/-- Python exceptions that the modelled code can raise. -/
inductive PyErr where
  | unboundLocal (v : String)
  | indexError
  | runtimeError
  | keyboardInterrupt
  | appError (s : String)
deriving Repr, DecidableEq

/-- State of the GPIO pin subsystem.  `setup` records whether the channels
are currently configured (GPIO.setup has run and GPIO.cleanup has not);
`low` records whether the outputs were last driven LOW. -/
structure GpioState where
  setup : Bool
  low : Bool
deriving Repr, DecidableEq

/-- Fields of one GPS monitor read by the orchestrator (spec §3 GPSFix,
collaborator contract GPSMonitor).  Modelled with populated numeric fields. -/
structure GpsFix where
  lat : Int
  lon : Int
  alt : Int
  speed : Int
  satellite_number : Nat
  datetime : Nat
deriving Repr, DecidableEq

/-- One persisted row: the arguments of `db_func.commit_db` (lines 341-342
and 360-361).  `spec_data = none` is a metadata-only record (Python `None`);
`spec_data = some rows` is a full record with the spliced spectra rows. -/
structure Record where
  trigger_id : Nat
  gps1 : GpsFix
  gps2 : GpsFix
  bearing : Option Int
  solar_az : Option Int
  solar_el : Option Int
  spec_data : Option (List (Nat × Nat × Nat))
deriving Repr, DecidableEq

/-- Observable side effects of the modelled code, in program order. -/
inductive Act where
  | initGpioOff
  | rotate (target : Int)
  | sample (tid : Nat)
  | commit (r : Record)
  | stopAllCalled
  | pinsOff
  | gpioCleanup
  | sysExit (code : Nat)
deriving Repr, DecidableEq

/-- Configuration values the loop reads (config file, spec §6). -/
structure Config where
  db_used : Bool
  step_thresh : Nat
  bearing_fixed : Bool
  fixed_bearing_deg : Int
deriving Repr, DecidableEq

/-- The Python locals of `run` that survive from one loop iteration to the
next.  `motor_ready = none` models the local `motor_ready` never having been
assigned (it is only ever assigned at line 304); likewise `solar_az` and
`solar_el` model the loop-body locals assigned at line 278 (the variables
`solar_azi` / `solar_elev` initialised to `None` at lines 229-230 are
distinct names and are never read). -/
structure LoopState where
  last_commit_time : Nat
  motor_ready : Option Bool
  ship_bearing_mean : Option Int
  solar_az : Option Int
  solar_el : Option Int
  trigger_id : Option Nat
deriving Repr, DecidableEq

/-- Loop state right before the first iteration (lines 222-237). -/
def initLoopState (cfg : Config) (t_start : Nat) : LoopState :=
  { last_commit_time := t_start
    motor_ready := none
    ship_bearing_mean := if cfg.bearing_fixed then some cfg.fixed_bearing_deg else none
    solar_az := none
    solar_el := none
    trigger_id := none }

/-- Inputs of one loop iteration: the collaborator results this iteration
would observe, plus the clock and the current fields of the GPS managers. -/
structure CycleIn where
  interrupt : Bool
  gps_ready : Bool
  rad_ready : Bool
  gms : List GpsFix
  motor_pos : Option Int
  mean_bearing : Option Int
  solar_az : Int
  solar_el : Int
  target_step : Int
  sun_ok : Bool
  sample_fails : Bool
  sample_rows : List (Nat × Nat × Nat)
  now : Nat
deriving Repr, DecidableEq

/-- Result of one loop iteration: normal completion, the `continue` at
line 265 (motor position unreadable), or an exception escaping the `try`
body. -/
inductive CycleOut where
  | ok (s : LoopState) (acts : List Act)
  | skipped (s : LoopState) (acts : List Act)
  | exn (e : PyErr) (s : LoopState) (acts : List Act)
deriving Repr, DecidableEq

/-- Lines 325-363: evaluate the readiness gate and run the measurement
trigger / rate-limited heartbeat.  `acts` are the effects accumulated
earlier in the iteration; `sun_suitable` is the value of that local at
line 325.  Reading `motor_ready` raises `UnboundLocalError` when the local
was never assigned. -/
def gateAndTrigger (cfg : Config) (i : CycleIn) (s : LoopState)
    (gps_ready rad_ready sun_suitable : Bool) (acts : List Act) : CycleOut :=
  match s.motor_ready with
  | none => .exn (.unboundLocal "motor_ready") s acts
  | some motor_ready =>
    if gps_ready && motor_ready && rad_ready && sun_suitable then
      -- lines 326-344: full trigger
      let s1 : LoopState := { s with trigger_id := some i.now }
      match i.gms[0]?, i.gms[1]? with
      | none, _ => .exn .indexError s1 acts
      | some _, none => .exn .indexError s1 acts
      | some g0, some g1 =>
        let acts1 := acts ++ [.sample i.now]
        if i.sample_fails then .exn (.appError "sample_all") s1 acts1 else
        if cfg.db_used then
          let rec1 : Record :=
            { trigger_id := i.now, gps1 := g0, gps2 := g1
              bearing := s1.ship_bearing_mean
              solar_az := s1.solar_az, solar_el := s1.solar_el
              spec_data := some i.sample_rows }
          .ok { s1 with last_commit_time := i.now } (acts1 ++ [.commit rec1])
        else .ok s1 acts1
    else if ((i.now : Int) - (s.last_commit_time : Int)).natAbs < 60 then
      -- lines 347-349: inside the commit interval, do nothing
      .ok s acts
    else
      -- lines 351-363: metadata-only heartbeat
      match i.gms[0]?, i.gms[1]? with
      | none, _ => .exn .indexError s acts
      | some _, none => .exn .indexError s acts
      | some g0, some g1 =>
        if cfg.db_used then
          -- line 361 reads the loop-body locals solar_az / solar_el
          match s.solar_az, s.solar_el with
          | none, _ => .exn (.unboundLocal "solar_az") s acts
          | _, none => .exn (.unboundLocal "solar_el") s acts
          | some az, some el =>
            let rec2 : Record :=
              { trigger_id := i.now, gps1 := g0, gps2 := g1
                bearing := s.ship_bearing_mean
                solar_az := some az, solar_el := some el
                spec_data := none }
            .ok { s with last_commit_time := i.now } (acts ++ [.commit rec2])
        else .ok s acts

/-- One iteration of the main loop (lines 242-366).  A pending
KeyboardInterrupt is modelled as delivered at the start of the `try` body. -/
def runCycle (cfg : Config) (i : CycleIn) (s : LoopState) : CycleOut :=
  if i.interrupt then .exn .keyboardInterrupt s [] else
  match i.gps_ready with
  | true =>
    -- lines 256-258: read speed / satellite counts of managers 0 and 1
    match i.gms[0]?, i.gms[1]? with
    | none, _ => .exn .indexError s []
    | some _, none => .exn .indexError s []
    | some _, some _ =>
      -- lines 261-265: motor position; on a failed read, sleep and continue
      match i.motor_pos with
      | none => .skipped s []
      | some pos =>
        -- lines 268-269: refresh the mean bearing unless fixed
        let s1 : LoopState :=
          { s with ship_bearing_mean :=
              if cfg.bearing_fixed then s.ship_bearing_mean else i.mean_bearing }
        -- lines 271-283: gps fields, solar geometry
        let s2 : LoopState := { s1 with solar_az := some i.solar_az
                                        solar_el := some i.solar_el }
        -- lines 285-286: "{0:1.0f}".format(ship_bearing_mean, ...) raises
        -- TypeError when the bearing is still None
        match s2.ship_bearing_mean with
        | none => .exn (.appError "TypeError") s2 []
        | some _ =>
          let sun_suitable := i.sun_ok
          -- lines 291-303: tracking adjustment (the poll loop itself is
          -- modelled by tracking_poll below, under the Python < 3.8 clock
          -- semantics; its outcome does not affect the rest of the cycle)
          let acts : List Act :=
            if sun_suitable && ((i.target_step - pos).natAbs > cfg.step_thresh)
            then [.rotate i.target_step] else []
          -- line 304
          let s3 : LoopState := { s2 with motor_ready := some true }
          gateAndTrigger cfg i s3 true i.rad_ready sun_suitable acts
  | false =>
    -- lines 306-308
    gateAndTrigger cfg i s false i.rad_ready false []

/-- Homing poll loop, lines 142-149: `while moving and (time.clock()-t0<5)`,
whose body polls `motor_moving` (`flag k` is the k-th read, `none` meaning
the flag was unreadable and is treated as still moving, lines 145-146) and
sleeps 1 s.  `clock k` is the reading `time.clock()` returns at the k-th
loop-condition evaluation and `t0` the reading taken at line 139.  On the
target Linux platform `time.clock()` is processor time (Python < 3.8),
which `time.sleep` does not advance, so the readings are decoupled from
the wall-clock time the sleeps consume (on Python >= 3.8 the attribute no
longer exists and line 139 raises AttributeError before the loop is
entered).  Because nothing forces the readings past `t0 + 5`, the loop
has no a-priori bound; the model is therefore fuel-indexed: `some k`
means the loop exited at its k-th condition evaluation, having spent `k`
one-second sleeps of wall-clock time; `none` means it is still running
after `fuel` condition evaluations. -/
def homing_poll (clock : Nat → Nat) (flag : Nat → Option Bool) (t0 : Nat) :
    Nat → Bool → Nat → Option Nat
  | 0, _, _ => none
  | fuel + 1, moving, k =>
    if moving = true ∧ clock k - t0 < 5 then
      homing_poll clock flag t0 fuel ((flag k).getD true) (k + 1)
    else some k

/-- Tracking-adjustment poll loop, lines 296-303: same shape as the homing
loop — the same `time.clock()` readings against the 5 s cutoff (line 298)
— with a 2 s sleep (line 303), so an exit at the k-th condition
evaluation follows `k` two-second sleeps of wall-clock time. -/
def tracking_poll (clock : Nat → Nat) (flag : Nat → Option Bool) (t0 : Nat) :
    Nat → Bool → Nat → Option Nat
  | 0, _, _ => none
  | fuel + 1, moving, k =>
    if moving = true ∧ clock k - t0 < 5 then
      tracking_poll clock flag t0 fuel ((flag k).getD true) (k + 1)
    else some k

/-- Environment of `init_all`: whether building the device configs from the
discovered serial ports fails (lines 110-114 call collaborator init
functions; modelled from the spec: a discovery failure raises
`InitializationError`), and how many GPS serial ports were discovered. -/
structure InitEnv where
  dev_init_fails : Bool
  gps_ports : Nat
deriving Repr, DecidableEq

/-- Handles returned by a completed `init_all` (line 160). -/
structure Handles where
  db_used : Bool
  gpsCount : Nat
deriving Repr, DecidableEq

/-- Lines 99-160, `init_all`.  Returns the handles (or the exception that
escaped), the resulting pin state and the observable effects.  The database
init (line 101) and logger init (line 105) are modelled as succeeding; the
homing poll loop (lines 137-151) is modelled separately by `homing_poll`
under the Python < 3.8 clock semantics, and its outcome does not affect
the returned handles. -/
def init_all (e : InitEnv) (db_used : Bool) :
    Except PyErr Handles × GpioState × List Act :=
  -- line 102: initialisation.init_gpio(conf, state=0) sets all used pins LOW
  let g1 : GpioState := { setup := true, low := true }
  let acts1 : List Act := [.initGpioOff]
  if e.dev_init_fails then (.error (.appError "InitializationError"), g1, acts1) else
  -- lines 117-128: one GPSManager per discovered port; the local
  -- `gps_managers` is only assigned when at least one port was found
  if e.gps_ports = 0 then
    -- line 133: GPSChecker(gps_managers) reads the never-assigned local
    (.error (.unboundLocal "gps_managers"), g1, acts1)
  else
    (.ok { db_used := db_used, gpsCount := e.gps_ports }, g1, acts1)

/-- How a call of `stop_all` ends: `exit0` means line 200 (`sys.exit(0)`)
was reached; `raised e` means an earlier step raised. -/
inductive StopOut where
  | exit0
  | raised (e : PyErr)
deriving Repr, DecidableEq

/-- Lines 163-200, `stop_all`.  Closing the sqlite cursor (lines 168-169) is
modelled as non-raising (sqlite3 cursor close is idempotent).  The pin-OFF
step (line 173, `GPIO.output(pins, GPIO.LOW)`) follows the RPi.GPIO library
contract: driving channels that are not set up — in particular after a
previous `GPIO.cleanup()` — raises `RuntimeError`.  The thread-stop and
join steps (lines 176-197) are modelled as converging. -/
def stop_all (db_used : Bool) (g : GpioState) : StopOut × GpioState × List Act :=
  if g.setup then
    -- line 173 drives the pins LOW, line 174 releases them
    let g2 : GpioState := { setup := false, low := true }
    (.exit0, g2, [.stopAllCalled, .pinsOff, .gpioCleanup, .sysExit 0])
  else
    (.raised .runtimeError, g, [.stopAllCalled])

/-- How the modelled process run ends. -/
inductive ProcOut where
  | exit (code : Nat)
  | uncaught (e : PyErr)
deriving Repr, DecidableEq

/-- Result of running the main loop on a finite trace of iteration inputs:
either the trace ran out with the loop still alive, or the process halted. -/
inductive RunOut where
  | running (s : LoopState)
  | halted (p : ProcOut)
deriving Repr, DecidableEq

/-- Lines 242-374: the main loop with its exception handlers.  On a
KeyboardInterrupt, `stop_all` is called (lines 368-370); on any other
exception, `stop_all` is called and then `raise` (lines 371-374) — but when
`stop_all` reaches its `sys.exit(0)` the SystemExit propagates out of the
handler first, so the re-raise at line 374 is never executed.  If `stop_all`
itself raises, that exception escapes uncaught. -/
def run_loop (cfg : Config) (db_used : Bool) (g : GpioState) :
    List CycleIn → LoopState → RunOut × GpioState × List Act
  | [], s => (.running s, g, [])
  | i :: rest, s =>
    match runCycle cfg i s with
    | .ok s1 a =>
      let r := run_loop cfg db_used g rest s1
      (r.1, r.2.1, a ++ r.2.2)
    | .skipped s1 a =>
      let r := run_loop cfg db_used g rest s1
      (r.1, r.2.1, a ++ r.2.2)
    | .exn .keyboardInterrupt _ a =>
      let r := stop_all db_used g
      match r.1 with
      | .exit0 => (.halted (.exit 0), r.2.1, a ++ r.2.2)
      | .raised e2 => (.halted (.uncaught e2), r.2.1, a ++ r.2.2)
    | .exn _ _ a =>
      let r := stop_all db_used g
      match r.1 with
      | .exit0 => (.halted (.exit 0), r.2.1, a ++ r.2.2)
      | .raised e2 => (.halted (.uncaught e2), r.2.1, a ++ r.2.2)

/-- Lines 203-374, `run`: initialisation followed by the main loop.  When
`init_all` raises, the handler at lines 216-219 executes
`log.exception(...)` — but `log` (like `db_dict`, `gps_managers`, ...) is
only bound by the tuple unpacking at line 215, which did not happen — so
the handler itself fails with an `UnboundLocalError` and neither `stop_all`
nor the re-raise at line 219 is reached. -/
def run_program (e : InitEnv) (cfg : Config) (trace : List CycleIn) (t_start : Nat) :
    RunOut × GpioState × List Act :=
  match init_all e cfg.db_used with
  | (.error _, g1, a1) =>
    (.halted (.uncaught (.unboundLocal "log")), g1, a1)
  | (.ok h, g1, a1) =>
    let r := run_loop cfg h.db_used g1 trace (initLoopState cfg t_start)
    (r.1, r.2.1, a1 ++ r.2.2)

/-- Folding the loop body over a trace, ignoring process shutdown: final
loop state and all accumulated effects (an exception aborts the fold). -/
def runCycles (cfg : Config) : List CycleIn → LoopState → LoopState × List Act
  | [], s => (s, [])
  | i :: rest, s =>
    match runCycle cfg i s with
    | .ok s1 a =>
      let r := runCycles cfg rest s1
      (r.1, a ++ r.2)
    | .skipped s1 a =>
      let r := runCycles cfg rest s1
      (r.1, a ++ r.2)
    | .exn _ s1 a => (s1, a)

/-- The records committed among a list of effects, in order. -/
def commitsOf (a : List Act) : List Record :=
  a.filterMap fun x => match x with | .commit r => some r | _ => none

/-- The trigger timestamps of the committed records, in order. -/
def commitTimes (a : List Act) : List Nat :=
  (commitsOf a).map Record.trigger_id

/-- Readiness-gate value a cycle would use at line 325, as a function of the
iteration inputs and the incoming state: `none` when reading `motor_ready`
would raise `UnboundLocalError`. -/
def gateValue (i : CycleIn) (s : LoopState) : Option Bool :=
  (if i.gps_ready then some true else s.motor_ready).map
    fun mr => i.gps_ready && mr && i.rad_ready && (if i.gps_ready then i.sun_ok else false)

/-- Did the iteration complete normally? -/
def isOk (o : CycleOut) : Bool :=
  match o with
  | .ok _ _ => true
  | _ => false

/-- Value of the local `ship_bearing_mean` after the per-cycle checks:
refreshed from the GPS checker in a gps-ready cycle with a non-fixed
bearing, otherwise carried over. -/
def bearingAfter (cfg : Config) (i : CycleIn) (s : LoopState) : Option Int :=
  if i.gps_ready then
    (if cfg.bearing_fixed then s.ship_bearing_mean else i.mean_bearing)
  else s.ship_bearing_mean

/-- Value of the local `solar_az` after the per-cycle checks. -/
def solarAzAfter (i : CycleIn) (s : LoopState) : Option Int :=
  if i.gps_ready then some i.solar_az else s.solar_az

/-- Value of the local `solar_el` after the per-cycle checks. -/
def solarElAfter (i : CycleIn) (s : LoopState) : Option Int :=
  if i.gps_ready then some i.solar_el else s.solar_el

/-- Does an iteration outcome raise IndexError? -/
def raisesIndex (o : CycleOut) : Bool :=
  match o with
  | .exn .indexError _ _ => true
  | _ => false

/-- The loop state an iteration outcome leaves behind. -/
def CycleOut.outState : CycleOut → LoopState
  | .ok s _ => s
  | .skipped s _ => s
  | .exn _ s _ => s

/-- The effects an iteration outcome performed. -/
def CycleOut.outActs : CycleOut → List Act
  | .ok _ a => a
  | .skipped _ a => a
  | .exn _ _ a => a

/-! ### Concrete fixtures used by the claim theorems -/

/-- A populated GPS fix for manager 0. -/
def fixA : GpsFix :=
  { lat := 50, lon := -4, alt := 10, speed := 5, satellite_number := 9, datetime := 1000 }

/-- A populated GPS fix for manager 1. -/
def fixB : GpsFix :=
  { lat := 51, lon := -4, alt := 11, speed := 5, satellite_number := 8, datetime := 1000 }

/-- A configuration with the database in use and a fixed bearing. -/
def cfgDb : Config :=
  { db_used := true, step_thresh := 100, bearing_fixed := true, fixed_bearing_deg := 90 }

/-- The same configuration with the database not in use. -/
def cfgNoDb : Config := { cfgDb with db_used := false }

/-- Iteration input delivering a KeyboardInterrupt. -/
def iInterrupt : CycleIn :=
  { interrupt := true, gps_ready := false, rad_ready := false, gms := [fixA, fixB]
    motor_pos := none, mean_bearing := none, solar_az := 0, solar_el := 0
    target_step := 0, sun_ok := false, sample_fails := false, sample_rows := []
    now := 10 }

/-- Iteration input for a first cycle whose GPS check fails. -/
def iGpsDown : CycleIn := { iInterrupt with interrupt := false }

/-- Iteration input with every readiness check passing and all collaborators
responding: GPS ready, motor at the target, radiometers responding, sun
suitable. -/
def iAllReady : CycleIn :=
  { interrupt := false, gps_ready := true, rad_ready := true, gms := [fixA, fixB]
    motor_pos := some 0, mean_bearing := none, solar_az := 120, solar_el := 30
    target_step := 0, sun_ok := true, sample_fails := false
    sample_rows := [(1, 10, 5)], now := 100 }

/-- Like `iAllReady`, but the synchronized sampling call fails mid-trigger. -/
def iSampleBoom : CycleIn := { iAllReady with sample_fails := true }

/-- A gate-false iteration 100 s after the last commit: GPS not ready,
radiometers ready. -/
def iHeartbeat : CycleIn := { iGpsDown with rad_ready := true, now := 100 }

/-- A loop state in which an earlier all-ready cycle has already assigned
`motor_ready`, the bearing and the solar locals, with the last commit at
time 0. -/
def sWarm : LoopState :=
  { last_commit_time := 0, motor_ready := some true, ship_bearing_mean := some 90
    solar_az := some 120, solar_el := some 30, trigger_id := none }

/-! ### Claim theorems -/

/-- Claim C1 (code_bug).  The claim states that the pins are set LOW first
thing in `init_all` and that every exit path — manual interrupt, unhandled
cycle exception, and initialisation failure — reaches the pins-OFF step of
`stop_all`.  The first act of `init_all` is indeed the pins-OFF, and the
interrupt and cycle-exception paths do reach `stop_all`'s pins-OFF step;
but on an initialisation failure the handler at lines 216-219 dies with an
`UnboundLocalError` on `log` before calling `stop_all`, so that exit path
never reaches the pins-OFF step. -/
theorem C1_pins_off_exit_paths :
    ((init_all ⟨false, 2⟩ true).2.2.head? = some .initGpioOff)
    ∧ (Act.pinsOff ∈ (run_program ⟨false, 2⟩ cfgDb [iInterrupt] 0).2.2)
    ∧ (Act.pinsOff ∈ (run_program ⟨false, 2⟩ cfgDb [iSampleBoom] 0).2.2)
    ∧ ((run_program ⟨true, 2⟩ cfgDb [] 0).1
        = .halted (.uncaught (.unboundLocal "log")))
    ∧ (Act.pinsOff ∉ (run_program ⟨true, 2⟩ cfgDb [] 0).2.2) := by
  decide

/-- Claim C2 (code_bug).  A manual interrupt does exit with code 0 after
teardown, as claimed.  But an unexpected exception in a loop iteration
(here: a failure inside `sample_all` in an otherwise all-ready cycle) also
ends the process with exit code 0: `stop_all` runs and its `sys.exit(0)` at
line 200 pre-empts the re-raise at line 374, so the claimed non-zero exit
never happens. -/
theorem C2_exit_code_zero_on_unexpected_exception :
    ((run_program ⟨false, 2⟩ cfgDb [iInterrupt] 0).1 = .halted (.exit 0))
    ∧ (Act.stopAllCalled ∈ (run_program ⟨false, 2⟩ cfgDb [iSampleBoom] 0).2.2)
    ∧ ((run_program ⟨false, 2⟩ cfgDb [iSampleBoom] 0).1 = .halted (.exit 0)) := by
  decide

/-- Claim C5 (code_bug).  `motor_ready` is not computed afresh each cycle:
it is only assigned inside the `gps_ready` branch (line 304).  On a first
cycle whose GPS check fails, evaluating the gate at line 325 reads the
never-assigned local and raises `UnboundLocalError`; and on a later
GPS-down cycle the previous cycle's stale `motor_ready = True` is reused
and the iteration completes normally. -/
theorem C5_motor_ready_not_fresh :
    (runCycle cfgDb iGpsDown (initLoopState cfgDb 0)
      = .exn (.unboundLocal "motor_ready") (initLoopState cfgDb 0) [])
    ∧ (runCycle cfgDb { iGpsDown with now := 30 } sWarm = .ok sWarm []) := by
  decide

/-- Claim C6 (code_bug).  Initialisation failure does produce an
`InitializationError` from the device-discovery step, but the caller's
handler (lines 216-219) crashes with an `UnboundLocalError` on `log`
before running `stop_all`, so the claimed teardown-then-re-raise never
happens on an initialisation failure. -/
theorem C6_no_teardown_on_init_failure :
    ((init_all ⟨true, 2⟩ true).1 = .error (.appError "InitializationError"))
    ∧ ((run_program ⟨true, 2⟩ cfgDb [] 0).1
        = .halted (.uncaught (.unboundLocal "log")))
    ∧ (Act.stopAllCalled ∉ (run_program ⟨true, 2⟩ cfgDb [] 0).2.2) := by
  refine ⟨rfl, rfl, ?_⟩
  decide

/-- Claim C7 counterexample.  `stop_all` is not idempotent: the first call
releases the pins (`GPIO.cleanup`, line 174), so the pin-OFF step of a
second call (`GPIO.output`, line 173) raises a RuntimeError. -/
theorem C7_second_call_raises :
    (stop_all true (stop_all true { setup := true, low := true }).2.1).1
      = .raised .runtimeError := by
  decide

/-- Claim C7 (corrected).  What does hold: from the initialised pin state a
single `stop_all` call raises nothing, drives the pins LOW, releases them,
and terminates the process with exit code 0; a second call then fails at
the pin-OFF step because the pins were released (in-process, a second call
is unreachable anyway since the first exits the process). -/
theorem C7_stop_all_once (db_used : Bool) (g : GpioState) (h : g.setup = true) :
    (stop_all db_used g).1 = .exit0
    ∧ (stop_all db_used g).2.1 = { setup := false, low := true }
    ∧ Act.pinsOff ∈ (stop_all db_used g).2.2
    ∧ Act.sysExit 0 ∈ (stop_all db_used g).2.2
    ∧ (stop_all db_used (stop_all db_used g).2.1).1 = .raised .runtimeError := by
  refine ⟨?_, ?_, ?_, ?_, ?_⟩ <;> simp [stop_all, h]

/-- Witness for `C7_stop_all_once` at the initialised pin state. -/
theorem C7_stop_all_once_witness :
    (stop_all true { setup := true, low := true }).1 = .exit0
    ∧ (stop_all true { setup := true, low := true }).2.1
        = { setup := false, low := true }
    ∧ Act.pinsOff ∈ (stop_all true { setup := true, low := true }).2.2
    ∧ Act.sysExit 0 ∈ (stop_all true { setup := true, low := true }).2.2
    ∧ (stop_all true (stop_all true { setup := true, low := true }).2.1).1
        = .raised .runtimeError :=
  C7_stop_all_once true { setup := true, low := true } rfl

/-- Claim C9 (code_bug).  With zero discovered GPS ports, `init_all` logs
and then crashes at line 133 (`GPSChecker(gps_managers)`) with an
`UnboundLocalError`, because the local `gps_managers` is only assigned when
at least one port was found: initialisation does not complete, contrary to
the claim.  With ports present, one manager per port is started and
initialisation completes. -/
theorem C9_zero_gps_ports_crashes_init :
    ((init_all ⟨false, 0⟩ true).1 = .error (.unboundLocal "gps_managers"))
    ∧ ((init_all ⟨false, 2⟩ true).1 = .ok { db_used := true, gpsCount := 2 }) :=
  ⟨rfl, rfl⟩

/-- Claim C3 counterexample.  A gate-false iteration 100 s after the last
commit, with the database not in use: no record is persisted and
`last_commit_time` is not advanced, contradicting the claim's
unconditional "exactly one metadata-only record is persisted and
last_commit_time is advanced". -/
theorem C3_no_heartbeat_without_db :
    runCycle cfgNoDb iHeartbeat sWarm = .ok sWarm [] := by
  decide

/-- Claim C4 counterexample.  An all-ready (gate-true) iteration with the
database not in use: sampling runs, but no TriggerRecord is persisted and
`last_commit_time` stays at 0 rather than being set to the current time
(100), contradicting the claim's unconditional "persists a full
TriggerRecord ... and sets last_commit_time". -/
theorem C4_no_record_without_db :
    runCycle cfgNoDb iAllReady (initLoopState cfgNoDb 0)
      = .ok { last_commit_time := 0, motor_ready := some true
              ship_bearing_mean := some 90, solar_az := some 120
              solar_el := some 30, trigger_id := some 100 }
            [Act.sample 100] := by
  decide

/-- While the homing loop keeps running, every `time.clock()` reading it
has evaluated was still below the `t0 + 5` cutoff: the loop is bounded by
its clock readings.  (What those readings measure is a separate question:
they are CPU time, not wall-clock time.) -/
theorem homing_poll_reading_bound (clock : Nat → Nat) (flag : Nat → Option Bool)
    (t0 : Nat) :
    ∀ (fuel : Nat) (moving : Bool) (k : Nat),
      homing_poll clock flag t0 fuel moving k = none →
      ∀ j, k ≤ j → j < k + fuel → clock j - t0 < 5 := by
  intro fuel
  induction fuel with
  | zero =>
    intro moving k h j hj1 hj2
    omega
  | succ n ih =>
    intro moving k h j hj1 hj2
    rw [homing_poll] at h
    split at h
    · rename_i hc
      rcases Nat.eq_or_lt_of_le hj1 with rfl | hlt
      · exact hc.2
      · exact ih ((flag k).getD true) (k + 1) h j (by omega) (by omega)
    · exact absurd h (by simp)

/-- Claim C8 (code_bug).  The loops' guards compare `time.clock()`
readings, which on the target platform are processor time that
`time.sleep` does not advance (and which do not exist at all on
Python >= 3.8): with a never-converging device whose moving-flag is
always unreadable and readings frozen at `t0`, the homing loop is still
running after 100 condition evaluations — 100 one-second sleeps, twenty
times the claimed 5 s wall-clock bound — and the tracking loop after 50
evaluations (100 s).  Only when the readings happen to advance with the
sleeps (readings `k` resp. `2k` at evaluation `k`) do the loops exit at
the claimed bound — 5 polls (5 s) for homing, 3 polls (6 s, one poll
interval past the timeout) for tracking — treating the unreadable flag as
still moving throughout. -/
theorem C8_poll_loops_clock_not_wall :
    homing_poll (fun _ => 0) (fun _ => none) 0 100 true 0 = none
    ∧ tracking_poll (fun _ => 0) (fun _ => none) 0 50 true 0 = none
    ∧ homing_poll (fun k => k) (fun _ => none) 0 10 true 0 = some 5
    ∧ tracking_poll (fun k => 2 * k) (fun _ => none) 0 10 true 0 = some 3 := by
  decide

/-- With two GPS managers, no branch of the loop body can raise IndexError. -/
theorem runCycle_no_indexError (cfg : Config) (i : CycleIn) (s : LoopState)
    (hlen : 2 ≤ i.gms.length) : raisesIndex (runCycle cfg i s) = false := by
  have hl0 : 0 < i.gms.length := by omega
  have hl1 : 1 < i.gms.length := by omega
  have h0 := List.getElem?_eq_getElem hl0
  have h1 := List.getElem?_eq_getElem hl1
  simp only [runCycle, gateAndTrigger, h0, h1]
  repeat' split
  all_goals rfl

/-- Claim C10 (confirmed).  Each of the three GPS-snapshot sites indexes
`gps_managers[0]` and `gps_managers[1]` with no length guard.  With at
least two managers no iteration can raise IndexError; with fewer than two,
any iteration whose GPS check passes raises IndexError at the reads of
lines 256-258, and any gate-false iteration reaching the 60 s heartbeat
branch raises IndexError at the snapshot of lines 353-354. -/
theorem C10_unguarded_dual_gps_indexing (cfg : Config) (i : CycleIn) (s : LoopState) :
    (2 ≤ i.gms.length →
      ∀ e s2 a, runCycle cfg i s = .exn e s2 a → e ≠ .indexError)
    ∧ (i.gms.length < 2 → i.interrupt = false → i.gps_ready = true →
      ∃ s2 a, runCycle cfg i s = .exn .indexError s2 a)
    ∧ (i.gms.length < 2 → i.interrupt = false → i.gps_ready = false →
      s.motor_ready.isSome →
      60 ≤ ((i.now : Int) - (s.last_commit_time : Int)).natAbs →
      ∃ s2 a, runCycle cfg i s = .exn .indexError s2 a) := by
  refine ⟨?_, ?_, ?_⟩
  · intro hlen e s2 a hrun he
    subst he
    have hfalse := runCycle_no_indexError cfg i s hlen
    rw [hrun] at hfalse
    simp [raisesIndex] at hfalse
  · intro hlen hint hgps
    have hcases : i.gms[0]? = none ∨ (∃ g, i.gms[0]? = some g ∧ i.gms[1]? = none) := by
      match hg : i.gms with
      | [] => exact Or.inl rfl
      | [g] => exact Or.inr ⟨g, rfl, rfl⟩
      | g :: g2 :: t =>
        rw [hg] at hlen
        exact absurd hlen (by simp)
    rcases hcases with h0 | ⟨g, h0, h1⟩
    · exact ⟨s, [], by simp [runCycle, hint, hgps, h0]⟩
    · exact ⟨s, [], by simp [runCycle, hint, hgps, h0, h1]⟩
  · intro hlen hint hgps hmr helapsed
    obtain ⟨mr, hmr⟩ := Option.isSome_iff_exists.mp hmr
    have hcases : i.gms[0]? = none ∨ (∃ g, i.gms[0]? = some g ∧ i.gms[1]? = none) := by
      match hg : i.gms with
      | [] => exact Or.inl rfl
      | [g] => exact Or.inr ⟨g, rfl, rfl⟩
      | g :: g2 :: t =>
        rw [hg] at hlen
        exact absurd hlen (by simp)
    rcases hcases with h0 | ⟨g, h0, h1⟩
    · refine ⟨s, [], ?_⟩
      simp [runCycle, hint, hgps, gateAndTrigger, hmr, h0]
      omega
    · refine ⟨s, [], ?_⟩
      simp [runCycle, hint, hgps, gateAndTrigger, hmr, h0, h1]
      omega

/-- Witness for `C10_unguarded_dual_gps_indexing`: with a single GPS
manager, an all-ready iteration raises IndexError. -/
theorem C10_unguarded_dual_gps_indexing_witness :
    ∃ s2 a, runCycle cfgDb { iAllReady with gms := [fixA] } (initLoopState cfgDb 0)
      = .exn .indexError s2 a :=
  (C10_unguarded_dual_gps_indexing cfgDb { iAllReady with gms := [fixA] }
      (initLoopState cfgDb 0)).2.1 (by decide) (by decide) (by decide)

set_option maxHeartbeats 2000000 in
/-- When the gate cannot evaluate to true, an iteration never samples, and
either commits nothing and leaves `last_commit_time` unchanged, or commits
exactly one metadata-only record timestamped `i.now`, sets
`last_commit_time` to `i.now`, and does so only when at least 60 s have
elapsed since the previous commit. -/
theorem runCycle_gate_not_true (cfg : Config) (i : CycleIn) (s : LoopState)
    (hint : i.interrupt = false) (hgate : gateValue i s ≠ some true) :
    (∀ t, Act.sample t ∉ (runCycle cfg i s).outActs)
    ∧ ((commitsOf (runCycle cfg i s).outActs = []
          ∧ (runCycle cfg i s).outState.last_commit_time = s.last_commit_time)
       ∨ ((commitsOf (runCycle cfg i s).outActs).map Record.trigger_id = [i.now]
          ∧ (∀ r ∈ commitsOf (runCycle cfg i s).outActs, r.spec_data = none)
          ∧ (runCycle cfg i s).outState.last_commit_time = i.now
          ∧ 60 ≤ ((i.now : Int) - (s.last_commit_time : Int)).natAbs)) := by
  simp only [runCycle, gateAndTrigger, hint]
  repeat' split
  all_goals
    first
    | (exfalso; simp_all [gateValue]; done)
    | (refine ⟨by simp [CycleOut.outActs], Or.inl ?_⟩
       simp [commitsOf, CycleOut.outActs, CycleOut.outState]
       done)
    | (refine ⟨by simp [CycleOut.outActs], Or.inr ⟨?_, ?_, ?_, ?_⟩⟩ <;>
        first
        | (simp [commitsOf, CycleOut.outActs, CycleOut.outState]; done)
        | omega)

/-- With the radiometer check failing, the gate cannot evaluate to true. -/
theorem gate_not_true_of_rad_down (i : CycleIn) (s : LoopState)
    (hrad : i.rad_ready = false) : gateValue i s ≠ some true := by
  cases hg : i.gps_ready with
  | true => simp [gateValue, hg, hrad]
  | false =>
    cases hm : s.motor_ready with
    | none => simp [gateValue, hg, hm]
    | some mr => simp [gateValue, hg, hm]

/-- A chain of lower bounds survives lowering its base. -/
theorem chain_le_of_le (a b : Nat) (l : List Nat) (hab : a ≤ b)
    (h : List.Chain (· ≤ ·) b l) : List.Chain (· ≤ ·) a l := by
  cases l with
  | nil => exact List.Chain.nil
  | cons c t =>
    rw [List.chain_cons] at h ⊢
    exact ⟨le_trans hab h.1, h.2⟩

/-- Commit timestamps distribute over concatenated effect lists. -/
theorem commitTimes_append (a b : List Act) :
    commitTimes (a ++ b) = commitTimes a ++ commitTimes b := by
  simp [commitTimes, commitsOf, List.filterMap_append]

/-- Along any run whose iterations all have the radiometer check failing
(so the gate is never true), with iteration clocks that never run
backwards, the timestamps of the committed heartbeat records form a chain
with gaps of at least 60 s, anchored 60 s after the initial
`last_commit_time`. -/
theorem rad_down_commit_chain (cfg : Config) :
    ∀ (trace : List CycleIn) (s : LoopState),
      (∀ i ∈ trace, i.rad_ready = false ∧ i.interrupt = false) →
      List.Chain (· ≤ ·) s.last_commit_time (trace.map CycleIn.now) →
      List.Chain (fun a b => a + 60 ≤ b) s.last_commit_time
        (commitTimes (runCycles cfg trace s).2) := by
  intro trace
  induction trace with
  | nil =>
    intro s h1 h2
    simp [runCycles, commitTimes, commitsOf]
  | cons i rest ih =>
    intro s hall hchain
    obtain ⟨hrad, hint⟩ := hall i (by simp)
    have hgate := gate_not_true_of_rad_down i s hrad
    have hmaster := (runCycle_gate_not_true cfg i s hint hgate).2
    rw [List.map_cons, List.chain_cons] at hchain
    obtain ⟨hle0, hchain2⟩ := hchain
    have hallrest : ∀ j ∈ rest, j.rad_ready = false ∧ j.interrupt = false :=
      fun j hj => hall j (by simp [hj])
    cases hc : runCycle cfg i s with
    | ok s1 a =>
      rw [hc] at hmaster
      simp only [CycleOut.outActs, CycleOut.outState] at hmaster
      simp only [runCycles, hc, commitTimes_append]
      rcases hmaster with ⟨hc0, hl⟩ | ⟨hmap, hspec, hl1, h60⟩
      · have hct : commitTimes a = [] := by simp [commitTimes, hc0]
        rw [hct, List.nil_append, ← hl]
        have hch := chain_le_of_le _ _ _ hle0 hchain2
        rw [← hl] at hch
        exact ih s1 hallrest hch
      · have hct : commitTimes a = [i.now] := hmap
        rw [hct, List.cons_append, List.nil_append, List.chain_cons]
        refine ⟨by omega, ?_⟩
        rw [← hl1]
        rw [← hl1] at hchain2
        exact ih s1 hallrest hchain2
    | skipped s1 a =>
      rw [hc] at hmaster
      simp only [CycleOut.outActs, CycleOut.outState] at hmaster
      simp only [runCycles, hc, commitTimes_append]
      rcases hmaster with ⟨hc0, hl⟩ | ⟨hmap, hspec, hl1, h60⟩
      · have hct : commitTimes a = [] := by simp [commitTimes, hc0]
        rw [hct, List.nil_append, ← hl]
        have hch := chain_le_of_le _ _ _ hle0 hchain2
        rw [← hl] at hch
        exact ih s1 hallrest hch
      · have hct : commitTimes a = [i.now] := hmap
        rw [hct, List.cons_append, List.nil_append, List.chain_cons]
        refine ⟨by omega, ?_⟩
        rw [← hl1]
        rw [← hl1] at hchain2
        exact ih s1 hallrest hchain2
    | exn e s1 a =>
      rw [hc] at hmaster
      simp only [CycleOut.outActs, CycleOut.outState] at hmaster
      simp only [runCycles, hc]
      rcases hmaster with ⟨hc0, hl⟩ | ⟨hmap, hspec, hl1, h60⟩
      · simp [commitTimes, hc0]
      · rw [show commitTimes a = [i.now] from hmap, List.chain_cons]
        exact ⟨by omega, List.Chain.nil⟩

/-- A chain with 60 s gaps yields pairwise 60 s separation, and every
element is at least 60 s after the anchor. -/
theorem chain_add60_pairwise :
    ∀ (a : Nat) (l : List Nat), List.Chain (fun x y => x + 60 ≤ y) a l →
      l.Pairwise (fun x y => x + 60 ≤ y) ∧ ∀ x ∈ l, a + 60 ≤ x := by
  intro a l
  induction l generalizing a with
  | nil => simp
  | cons b t ih =>
    intro h
    rw [List.chain_cons] at h
    obtain ⟨hab, ht⟩ := h
    obtain ⟨hp, hall⟩ := ih b ht
    refine ⟨List.Pairwise.cons (fun x hx => hall x hx) hp, ?_⟩
    intro x hx
    rcases List.mem_cons.mp hx with rfl | hx2
    · exact hab
    · have := hall x hx2
      omega

set_option maxHeartbeats 1000000 in
/-- A gate-false iteration at least 60 s after the last commit, with the
database in use and the branch path conditions satisfied, commits exactly
one metadata-only record carrying the two GPS snapshots and the current
bearing/solar locals, and advances `last_commit_time` to the cycle clock. -/
theorem runCycle_heartbeat (cfg : Config) (i : CycleIn) (s : LoopState)
    (g0 g1 : GpsFix)
    (hdb : cfg.db_used = true)
    (hint : i.interrupt = false)
    (hgate : gateValue i s = some false)
    (h0 : i.gms[0]? = some g0) (h1 : i.gms[1]? = some g1)
    (hmp : i.gps_ready = true → i.motor_pos.isSome)
    (hbr : i.gps_ready = true →
      (if cfg.bearing_fixed then s.ship_bearing_mean else i.mean_bearing).isSome)
    (hsol : i.gps_ready = false → s.solar_az.isSome ∧ s.solar_el.isSome)
    (h60 : 60 ≤ ((i.now : Int) - (s.last_commit_time : Int)).natAbs) :
    isOk (runCycle cfg i s) = true
    ∧ commitsOf (runCycle cfg i s).outActs
        = [{ trigger_id := i.now, gps1 := g0, gps2 := g1
             bearing := bearingAfter cfg i s
             solar_az := solarAzAfter i s, solar_el := solarElAfter i s
             spec_data := none }]
    ∧ (runCycle cfg i s).outState.last_commit_time = i.now
    ∧ (∀ t, Act.sample t ∉ (runCycle cfg i s).outActs) := by
  have hlt : ¬ (((i.now : Int) - (s.last_commit_time : Int)).natAbs < 60) := by omega
  cases hg : i.gps_ready with
  | false =>
    obtain ⟨haz, hel⟩ := hsol hg
    obtain ⟨az, hsaz⟩ := Option.isSome_iff_exists.mp haz
    obtain ⟨el, hsel⟩ := Option.isSome_iff_exists.mp hel
    cases hm : s.motor_ready with
    | none =>
      rw [gateValue] at hgate
      simp [hg, hm] at hgate
    | some mr =>
      simp [runCycle, gateAndTrigger, hint, hg, hm, h0, h1, hsaz, hsel, hdb, hlt,
            isOk, CycleOut.outActs, CycleOut.outState, commitsOf,
            bearingAfter, solarAzAfter, solarElAfter]
  | true =>
    obtain ⟨p, hp⟩ := Option.isSome_iff_exists.mp (hmp hg)
    obtain ⟨b, hb⟩ := Option.isSome_iff_exists.mp (hbr hg)
    cases hr : i.rad_ready <;> cases hsn : i.sun_ok
    all_goals
      first
      | (rw [gateValue] at hgate
         simp [hg, hr, hsn] at hgate
         done)
      | (by_cases hrot : cfg.step_thresh < (i.target_step - p).natAbs <;>
          simp [runCycle, gateAndTrigger, hint, hg, h0, h1, hp, hb, hdb, hlt, hr, hsn,
                hrot, isOk, CycleOut.outActs, CycleOut.outState, commitsOf,
                bearingAfter, solarAzAfter, solarElAfter])

/-- Claim C3 (corrected).  Amended with the database-in-use condition.
With `db['used']` true: a gate-false iteration less than 60 s after
`last_commit_time` persists nothing, performs no sampling and leaves
`last_commit_time` unchanged; a gate-false iteration at 60 s or more
persists exactly one metadata-only record (spectra = null, GPS snapshot /
bearing / solar fields only) and advances `last_commit_time`; and over any
run with the gate never true (radiometer check failing) and a
non-decreasing clock, the committed heartbeat timestamps are pairwise at
least 60 s apart — at most one per rolling 60 s window.  (Without
`db['used']`, nothing is persisted and `last_commit_time` never advances,
as the counterexample `C3_no_heartbeat_without_db` shows.) -/
theorem C3_heartbeat_rate_limited (cfg : Config) (hdb : cfg.db_used = true) :
    (∀ (i : CycleIn) (s : LoopState),
       i.interrupt = false → gateValue i s ≠ some true →
       ((i.now : Int) - (s.last_commit_time : Int)).natAbs < 60 →
       (runCycle cfg i s).outState.last_commit_time = s.last_commit_time
       ∧ commitsOf (runCycle cfg i s).outActs = []
       ∧ (∀ t, Act.sample t ∉ (runCycle cfg i s).outActs))
    ∧ (∀ (i : CycleIn) (s : LoopState) (g0 g1 : GpsFix),
       i.interrupt = false → gateValue i s = some false →
       i.gms[0]? = some g0 → i.gms[1]? = some g1 →
       (i.gps_ready = true → i.motor_pos.isSome) →
       (i.gps_ready = true →
         (if cfg.bearing_fixed then s.ship_bearing_mean else i.mean_bearing).isSome) →
       (i.gps_ready = false → s.solar_az.isSome ∧ s.solar_el.isSome) →
       60 ≤ ((i.now : Int) - (s.last_commit_time : Int)).natAbs →
       isOk (runCycle cfg i s) = true
       ∧ commitsOf (runCycle cfg i s).outActs
           = [{ trigger_id := i.now, gps1 := g0, gps2 := g1
                bearing := bearingAfter cfg i s
                solar_az := solarAzAfter i s, solar_el := solarElAfter i s
                spec_data := none }]
       ∧ (runCycle cfg i s).outState.last_commit_time = i.now
       ∧ (∀ t, Act.sample t ∉ (runCycle cfg i s).outActs))
    ∧ (∀ (trace : List CycleIn) (s : LoopState),
       (∀ i ∈ trace, i.rad_ready = false ∧ i.interrupt = false) →
       List.Chain (· ≤ ·) s.last_commit_time (trace.map CycleIn.now) →
       (commitTimes (runCycles cfg trace s).2).Pairwise (fun a b => a + 60 ≤ b)) := by
  refine ⟨?_, ?_, ?_⟩
  · intro i s hint hgate hlt
    have hm := runCycle_gate_not_true cfg i s hint hgate
    rcases hm.2 with ⟨hc, hl⟩ | ⟨hmap, hspec, hl1, h60⟩
    · exact ⟨hl, hc, hm.1⟩
    · exact absurd h60 (by omega)
  · intro i s g0 g1 hint hgate h0 h1 hmp hbr hsol h60
    exact runCycle_heartbeat cfg i s g0 g1 hdb hint hgate h0 h1 hmp hbr hsol h60
  · intro trace s hall hchain
    exact (chain_add60_pairwise _ _ (rad_down_commit_chain cfg trace s hall hchain)).1

/-- Witness for `C3_heartbeat_rate_limited`: the heartbeat conjunct at a
concrete gate-false iteration 100 s after the last commit. -/
theorem C3_heartbeat_rate_limited_witness :
    isOk (runCycle cfgDb iHeartbeat sWarm) = true
    ∧ commitsOf (runCycle cfgDb iHeartbeat sWarm).outActs
        = [{ trigger_id := iHeartbeat.now, gps1 := fixA, gps2 := fixB
             bearing := bearingAfter cfgDb iHeartbeat sWarm
             solar_az := solarAzAfter iHeartbeat sWarm
             solar_el := solarElAfter iHeartbeat sWarm
             spec_data := none }]
    ∧ (runCycle cfgDb iHeartbeat sWarm).outState.last_commit_time = iHeartbeat.now
    ∧ (∀ t, Act.sample t ∉ (runCycle cfgDb iHeartbeat sWarm).outActs) :=
  (C3_heartbeat_rate_limited cfgDb rfl).2.1 iHeartbeat sWarm fixA fixB (by decide)
    (by decide) (by decide) (by decide) (by decide) (by decide) (by decide) (by decide)

set_option maxHeartbeats 1000000 in
/-- Claim C4 (corrected).  Amended with the database-in-use condition.
In a gate-true iteration (all four predicates true, on a path where the
motor position and bearing were readable), the program mints
`trigger_id` = the cycle clock, snapshots both GPSFix values, calls the
synchronized sampling with that trigger id, and — when `db['used']` is
true — persists exactly one full TriggerRecord with non-null spectra and
sets `last_commit_time` to the cycle clock.  (Without `db['used']`,
sampling still runs but nothing is persisted and `last_commit_time` is
unchanged, as the counterexample `C4_no_record_without_db` shows.) -/
theorem C4_full_trigger_with_db (cfg : Config) (i : CycleIn) (s : LoopState)
    (g0 g1 : GpsFix) (p : Int) (b : Int)
    (hdb : cfg.db_used = true)
    (hint : i.interrupt = false)
    (hgps : i.gps_ready = true) (hrad : i.rad_ready = true) (hsun : i.sun_ok = true)
    (h0 : i.gms[0]? = some g0) (h1 : i.gms[1]? = some g1)
    (hp : i.motor_pos = some p)
    (hb : (if cfg.bearing_fixed then s.ship_bearing_mean else i.mean_bearing) = some b)
    (hsf : i.sample_fails = false) :
    isOk (runCycle cfg i s) = true
    ∧ (runCycle cfg i s).outState.trigger_id = some i.now
    ∧ (runCycle cfg i s).outState.last_commit_time = i.now
    ∧ Act.sample i.now ∈ (runCycle cfg i s).outActs
    ∧ commitsOf (runCycle cfg i s).outActs
        = [{ trigger_id := i.now, gps1 := g0, gps2 := g1, bearing := some b
             solar_az := some i.solar_az, solar_el := some i.solar_el
             spec_data := some i.sample_rows }] := by
  by_cases hrot : cfg.step_thresh < (i.target_step - p).natAbs <;>
    simp [runCycle, gateAndTrigger, hint, hgps, hrad, hsun, h0, h1, hp, hb, hsf, hdb,
          hrot, isOk, CycleOut.outActs, CycleOut.outState, commitsOf]

/-- Witness for `C4_full_trigger_with_db`: the all-ready iteration from a
fresh loop state with a fixed bearing of 90°. -/
theorem C4_full_trigger_with_db_witness :
    isOk (runCycle cfgDb iAllReady (initLoopState cfgDb 0)) = true
    ∧ (runCycle cfgDb iAllReady (initLoopState cfgDb 0)).outState.trigger_id
        = some iAllReady.now
    ∧ (runCycle cfgDb iAllReady (initLoopState cfgDb 0)).outState.last_commit_time
        = iAllReady.now
    ∧ Act.sample iAllReady.now ∈ (runCycle cfgDb iAllReady (initLoopState cfgDb 0)).outActs
    ∧ commitsOf (runCycle cfgDb iAllReady (initLoopState cfgDb 0)).outActs
        = [{ trigger_id := iAllReady.now, gps1 := fixA, gps2 := fixB, bearing := some 90
             solar_az := some iAllReady.solar_az, solar_el := some iAllReady.solar_el
             spec_data := some iAllReady.sample_rows }] :=
  C4_full_trigger_with_db cfgDb iAllReady (initLoopState cfgDb 0) fixA fixB 0 90
    rfl rfl rfl rfl rfl (by decide) (by decide) (by decide) (by decide) rfl

end SoRad
